import Mathlib

/-!
Verification of the `pem` executor core (`src/pem/core/executor.py`).

The executor resolves a job (script or project) into an external command,
supervises the spawned process under a global concurrency semaphore and a
timeout with terminate/kill escalation, and converts every failure into a
returned result record.  The definitions below are a shallow embedding of
that module: pure command construction is translated directly, the nondeterministic
environment (child-process behaviour, filesystem contents, exit codes of
preparation commands) is passed in explicitly, and the concurrency
discipline is a small-step transition system.
-/

namespace Pem

/-- The `Job` record as the executor uses it.  The ORM class itself lives in
`pem/db/models.py` outside the executor; the fields here are exactly those the
executor reads: `name`, `job_type`, `path`, `python_version`, `dependencies`. -/
structure Job where
  name : String
  job_type : String
  path : String
  python_version : Option String
  dependencies : Option (List String)
  deriving Repr, DecidableEq

/-- Python truthiness of an optional string: `None` and `""` are falsy. -/
def optTruthy : Option String → Bool
  | none => false
  | some s => s ≠ ""

/-- `self.python_version = self.job.python_version or self.app_config.default_python_version`
(executor.py line 35): Python `or` keeps the left value when truthy, else the right. -/
def resolvedPythonVersion (jobPv defaultPv : Option String) : Option String :=
  if optTruthy jobPv then jobPv else defaultPv

/-- The `--python <v>` fragment: emitted only when the version is truthy
(`if self.python_version:` / `if python:` in the source). -/
def pythonFlags (pv : Option String) : List String :=
  if optTruthy pv then ["--python", pv.getD ""] else []

/-- `Executor._build_uv_run_command` (executor.py lines 80-87). -/
def buildUvRunCommand (args : List String) (noProject : Bool) (python : Option String) :
    List String :=
  ["uv", "run"] ++ (if noProject then ["--no-project"] else []) ++ pythonFlags python ++ args

/-- The `--with <dep>` fragments of `_execute_script_path`: the loop body runs only
when `dependencies` is truthy (neither `None` nor `[]`). -/
def withFlags : Option (List String) → List String
  | none => []
  | some ds => if ds = [] then [] else ds.flatMap (fun d => ["--with", d])

/-- The command built by `Executor._execute_script_path` (executor.py lines 89-99):
`uv run --no-project [--python V] [--with d]* <script_path>`. -/
def scriptPathCommand (pv : Option String) (deps : Option (List String)) (scriptPath : String) :
    List String :=
  ["uv", "run", "--no-project"] ++ pythonFlags pv ++ withFlags deps ++ [scriptPath]

/-- `Executor._execute_script` (executor.py lines 149-151): runs the script path with
the job's declared dependencies. -/
def executeScript (job : Job) (defaultPv : Option String) : List String :=
  scriptPathCommand (resolvedPythonVersion job.python_version defaultPv) job.dependencies job.path

/-! ## Process supervision (`Executor._run_command`, executor.py lines 49-78) -/

/-- Behaviour of one attempted child process, supplied by the environment:
either the spawn (or anything else inside the `try` block) raises — the
`except Exception` path — or the child runs for `duration` time units, would
report `returncode` on its own, and `exitsOnTerm` says whether it exits within
the grace window after a terminate signal. -/
inductive ChildOutcome where
  | spawnFailure
  | runsFor (duration : Nat) (returncode : Int) (exitsOnTerm : Bool)
  deriving Repr, DecidableEq

/-- Observable effects of one `_run_command` call. -/
structure RunTrace where
  exitCode : Int
  terminateSent : Bool
  graceWait : Nat
  killed : Bool
  deriving Repr, DecidableEq

/-- `Executor._run_command` (executor.py lines 49-78): wait up to `procTimeout`;
on timeout send `terminate()`, wait a 10-unit grace window, `kill()` if still
alive, and return `-1` from either sub-path; on normal completion return
`process.returncode or 0`; on any exception return `-1`. -/
def runCommand (procTimeout : Nat) : ChildOutcome → RunTrace
  | .spawnFailure =>
      { exitCode := -1, terminateSent := false, graceWait := 0, killed := false }
  | .runsFor duration rc exitsOnTerm =>
      if duration ≤ procTimeout then
        { exitCode := if rc = 0 then 0 else rc,
          terminateSent := false, graceWait := 0, killed := false }
      else if exitsOnTerm then
        { exitCode := -1, terminateSent := true, graceWait := 10, killed := false }
      else
        { exitCode := -1, terminateSent := true, graceWait := 10, killed := true }

/-- The cases in which the executor itself intervened: spawn/internal
exception, or the child exceeded the timeout budget. -/
def intervened (procTimeout : Nat) : ChildOutcome → Bool
  | .spawnFailure => true
  | .runsFor duration _ _ => decide (procTimeout < duration)

/-! ## Project resolution (`_project_context`, `_project_entry_command`,
`_ensure_project_environment`, `_execute_project`) -/

/-- The filesystem facts the project pipeline inspects: whether the job path is a
plain file, which manifest files the directory holds, whether the managed
environment (`.venv`) and its interpreter (`.venv/bin/python`) exist, which
entry files are present, plus the resolved path and directory name. -/
structure ProjectFs where
  pathIsFile : Bool
  hasPyproject : Bool
  hasRequirements : Bool
  venvDirExists : Bool
  venvPythonExists : Bool
  hasMainPy : Bool
  hasAppPy : Bool
  hasDunderMain : Bool
  projectPath : String
  dirName : String
  deriving Repr, DecidableEq

/-- `self.venv_python` = `<project>/.venv/bin/python` (executor.py line 44). -/
def venvPython (fs : ProjectFs) : String :=
  fs.projectPath ++ "/.venv/bin/python"

/-- `Executor._project_entry_command` (executor.py lines 106-113): fixed
precedence `main.py`, `app.py`, `__main__.py`, with a module-invocation
fallback identical to the `__main__.py` case. -/
def projectEntryCommand (fs : ProjectFs) : List String :=
  if fs.hasMainPy then ["python", "main.py"]
  else if fs.hasAppPy then ["python", "app.py"]
  else if fs.hasDunderMain then ["python", "-m", fs.dirName]
  else ["python", "-m", fs.dirName]

/-- `Executor._ensure_project_environment` (executor.py lines 115-147).
Returns the preparation commands issued, the boolean the method returns, and
the filesystem state afterwards.  `exitOf` supplies each preparation command's
exit status.  The filesystem effect of a successful `uv sync` / `uv venv`
(the managed or bare environment comes into existence) follows the external
tool contract the spec gives for those operations. -/
def ensureProjectEnvironment (pv : Option String) (fs : ProjectFs)
    (exitOf : List String → Int) : List (List String) × Bool × ProjectFs :=
  if fs.hasPyproject then
    if fs.venvDirExists then ([], true, fs)
    else
      let cmd := ["uv", "sync"] ++ pythonFlags pv
      if exitOf cmd = 0 then
        ([cmd], true, { fs with venvDirExists := true, venvPythonExists := true })
      else ([cmd], false, fs)
  else if fs.hasRequirements then
    if fs.venvPythonExists then ([], true, fs)
    else
      let cmd := ["uv", "venv"] ++ pythonFlags pv
      if exitOf cmd ≠ 0 then ([cmd], false, fs)
      else
        let fs1 := { fs with venvDirExists := true, venvPythonExists := true }
        let installCmd :=
          ["uv", "pip", "install", "-r", "requirements.txt", "--python", venvPython fs]
        ([cmd, installCmd], exitOf installCmd = 0, fs1)
  else ([], true, fs)

/-- Result of resolving a project job: the preparation commands issued, the run
command finally handed to `_run_command` (`none` when preparation failed and the
method returned `-1` directly), its working directory, and the filesystem state
afterwards. -/
structure ProjectRun where
  prepCommands : List (List String)
  runCommand : Option (List String)
  cwd : Option String
  fsAfter : ProjectFs
  deriving Repr, DecidableEq

/-- `Executor._execute_project` (executor.py lines 153-180), up to the point the
run command is handed to `_run_command`. -/
def executeProject (pv : Option String) (fs : ProjectFs) (exitOf : List String → Int) :
    ProjectRun :=
  if fs.pathIsFile then
    { prepCommands := [], runCommand := some (scriptPathCommand pv none fs.projectPath),
      cwd := none, fsAfter := fs }
  else if fs.hasPyproject = false ∧ fs.hasRequirements = false then
    let entry := projectEntryCommand fs
    if entry.take 2 = ["python", "-m"] then
      { prepCommands := [], runCommand := some (buildUvRunCommand entry true pv),
        cwd := some fs.projectPath, fsAfter := fs }
    else
      { prepCommands := [],
        runCommand := some (scriptPathCommand pv none (fs.projectPath ++ "/" ++ entry.getLastD "")),
        cwd := none, fsAfter := fs }
  else
    let res := ensureProjectEnvironment pv fs exitOf
    if res.2.1 = false then
      { prepCommands := res.1, runCommand := none, cwd := none, fsAfter := res.2.2 }
    else
      let entry := projectEntryCommand res.2.2
      if fs.hasRequirements then
        let pyPath := if res.2.2.venvPythonExists then some (venvPython res.2.2) else none
        { prepCommands := res.1, runCommand := some (buildUvRunCommand entry true pyPath),
          cwd := some fs.projectPath, fsAfter := res.2.2 }
      else
        { prepCommands := res.1, runCommand := some (buildUvRunCommand entry false pv),
          cwd := some fs.projectPath, fsAfter := res.2.2 }

/-! ## Orchestration (`Executor.execute`, executor.py lines 182-229) -/

/-- `"SUCCESS" if exit_code == 0 else "FAILED"` (executor.py line 218). -/
def statusOf (exitCode : Int) : String :=
  if exitCode = 0 then "SUCCESS" else "FAILED"

/-- The record `execute` returns (the timestamp and duration fields of the
returned dict; times are abstract clock readings). -/
structure ExecRecord where
  status : String
  exitCode : Int
  startTime : Nat
  endTime : Nat
  duration : Int
  deriving Repr, DecidableEq

/-- `Executor.execute` (executor.py lines 182-229).  `openLog` models opening
and writing the log header, `dispatch` models the per-kind pipeline
(`_execute_script` / `_execute_project`); either may raise, modelled as
`Except.error`.  Everything inside the `try` block is caught by
`except Exception`, which sets `exit_code = -1`; the trailing bookkeeping
(end timestamp, duration, status, result construction) cannot raise, so the
function is `Except`-valued only to make "never raises" expressible. -/
def executeJob (job : Job) (openLog : Except String Unit)
    (dispatch : String → Except String Int) (startTime endTime : Nat) :
    Except String ExecRecord :=
  let body : Except String Int := do
    openLog
    if job.job_type = "script" then dispatch "script"
    else if job.job_type = "project" then dispatch "project"
    else Except.error ("Unsupported job type: " ++ job.job_type)
  let exitCode : Int :=
    match body with
    | .ok rc => rc
    | .error _ => -1
  Except.ok
    { status := statusOf exitCode, exitCode := exitCode,
      startTime := startTime, endTime := endTime,
      duration := (endTime : Int) - (startTime : Int) }

/-! ## Log file naming (executor.py line 34)

`self.log_path = logs_dir / f"{name}_{datetime.now(UTC).strftime('%Y%m%d_%H%M%S')}.log"`.
The `strftime` call is embedded as an interpreter over the directive sequence
of the format string. -/

/-- A wall-clock reading broken into calendar fields, as `strftime` consumes it. -/
structure DateTime where
  year : Nat
  month : Nat
  day : Nat
  hour : Nat
  minute : Nat
  second : Nat
  deriving Repr, DecidableEq

/-- Zero-pad a number to `width` digits, as the `strftime` numeric directives do. -/
def zeroPad (width n : Nat) : String :=
  let s := toString n
  String.mk (List.replicate (width - s.length) '0') ++ s

/-- One directive of a `strftime` format string. -/
inductive Directive where
  | Y | m | d | H | M | S
  | lit (c : Char)
  deriving Repr, DecidableEq

/-- Render one directive against a clock reading. -/
def renderDirective (t : DateTime) : Directive → String
  | .Y => zeroPad 4 t.year
  | .m => zeroPad 2 t.month
  | .d => zeroPad 2 t.day
  | .H => zeroPad 2 t.hour
  | .M => zeroPad 2 t.minute
  | .S => zeroPad 2 t.second
  | .lit c => String.singleton c

/-- Render a directive sequence, in order. -/
def strftime (t : DateTime) : List Directive → String
  | [] => ""
  | dir :: rest => renderDirective t dir ++ strftime t rest

/-- The format string `'%Y%m%d_%H%M%S'` of executor.py line 34. -/
def logTimestampFormat : List Directive :=
  [.Y, .m, .d, .lit '_', .H, .M, .S]

/-- The log file name the executor builds: `<name>_<strftime result>.log`. -/
def logFileName (jobName : String) (t : DateTime) : String :=
  jobName ++ "_" ++ strftime t logTimestampFormat ++ ".log"

/-- The full log path `<logs_dir>/<file name>`. -/
def logFilePath (logsDir jobName : String) (t : DateTime) : String :=
  logsDir ++ "/" ++ logFileName jobName t

/-- The file name pattern the spec describes: `<job_name>_<YYYYMMDDHHMMSS>.log`,
i.e. the format string `'%Y%m%d%H%M%S'` with no separator inside the timestamp.
Stated from the spec's words, for comparison with `logFileName`. -/
def specLogFileName (jobName : String) (t : DateTime) : String :=
  jobName ++ "_" ++ strftime t [.Y, .m, .d, .H, .M, .S] ++ ".log"

/-! ## Concurrency discipline (executor.py lines 24 and 51)

`SEMAPHORE = asyncio.Semaphore(MAX_CONCURRENT_PROCESSES)` is module-wide, and
every `_run_command` body runs inside `async with SEMAPHORE`, so the slot is
released on every exit path of the block: normal completion, the timeout
branch, and the `except Exception` branch.  The cooperative scheduler is
embedded as a small-step transition system over the phases of the logical
executions. -/

/-- Phase of one logical execution: not yet submitted, suspended acquiring a
semaphore slot, holding a slot with a live child process, or finished. -/
inductive Phase where
  | idle | waiting | running | done
  deriving Repr, DecidableEq

/-- How a `_run_command` body ends; the `async with` block releases the slot
in each of these cases alike. -/
inductive ExitPath where
  | normal | timeout | spawnFailure
  deriving Repr, DecidableEq

/-- Scheduler state: free semaphore slots and the phase of each execution. -/
structure SemState where
  avail : Nat
  phases : List Phase
  deriving Repr, DecidableEq

/-- Number of executions whose child process is alive. -/
def countRunning : List Phase → Nat
  | [] => 0
  | p :: rest => (if p = Phase.running then 1 else 0) + countRunning rest

/-- One scheduler step: an execution reaches the `async with SEMAPHORE` line
(`submit`), acquires a slot when one is free (`acquire`, the only way a child
is spawned), or its `_run_command` body ends by any exit path, releasing the
slot (`finish`). -/
inductive SemStep : SemState → SemState → Prop where
  | submit (s : SemState) (i : Nat) (h : s.phases[i]? = some Phase.idle) :
      SemStep s ⟨s.avail, s.phases.set i Phase.waiting⟩
  | acquire (s : SemState) (i : Nat) (h : s.phases[i]? = some Phase.waiting)
      (hav : 0 < s.avail) :
      SemStep s ⟨s.avail - 1, s.phases.set i Phase.running⟩
  | finish (s : SemState) (i : Nat) (o : ExitPath) (h : s.phases[i]? = some Phase.running) :
      SemStep s ⟨s.avail + 1, s.phases.set i Phase.done⟩

/-- Initial state: the semaphore holds `cap` slots
(`asyncio.Semaphore(MAX_CONCURRENT_PROCESSES)`), `n` executions submitted. -/
def initState (cap n : Nat) : SemState :=
  ⟨cap, List.replicate n Phase.idle⟩

/-- States the scheduler can reach from `initState cap n`. -/
def Reachable (cap n : Nat) (s : SemState) : Prop :=
  Relation.ReflTransGen SemStep (initState cap n) s

/-! ## Sample filesystem states used to instantiate the theorems -/

/-- A project directory holding both `pyproject.toml` and `requirements.txt`,
with its managed environment already in place. -/
def bothManifestsFs : ProjectFs :=
  { pathIsFile := false, hasPyproject := true, hasRequirements := true,
    venvDirExists := true, venvPythonExists := true,
    hasMainPy := true, hasAppPy := false, hasDunderMain := false,
    projectPath := "/proj", dirName := "proj" }

/-- A project directory holding only `pyproject.toml`, managed environment
already in place. -/
def pyprojectOnlyFs : ProjectFs :=
  { pathIsFile := false, hasPyproject := true, hasRequirements := false,
    venvDirExists := true, venvPythonExists := true,
    hasMainPy := true, hasAppPy := false, hasDunderMain := false,
    projectPath := "/proj", dirName := "proj" }

/-- A project directory holding only `requirements.txt`, no environment yet. -/
def reqOnlyFs : ProjectFs :=
  { pathIsFile := false, hasPyproject := false, hasRequirements := true,
    venvDirExists := false, venvPythonExists := false,
    hasMainPy := true, hasAppPy := false, hasDunderMain := false,
    projectPath := "/proj", dirName := "proj" }

/-- A project job whose path is itself a file. -/
def fileTargetFs : ProjectFs :=
  { pathIsFile := true, hasPyproject := false, hasRequirements := false,
    venvDirExists := false, venvPythonExists := false,
    hasMainPy := false, hasAppPy := false, hasDunderMain := false,
    projectPath := "/proj/tool.py", dirName := "tool.py" }

/-- A project directory with no manifest files and no recognised entry file. -/
def emptyDirFs : ProjectFs :=
  { pathIsFile := false, hasPyproject := false, hasRequirements := false,
    venvDirExists := false, venvPythonExists := false,
    hasMainPy := false, hasAppPy := false, hasDunderMain := false,
    projectPath := "/proj/tool", dirName := "tool" }

/-! # Theorems -/

/-- C1: for every job whose `job_type` is `script` or `project`, `execute`
never raises: it returns a result record, with the end timestamp and the
duration recorded, and whenever anything in the pipeline (opening the log or
the per-kind dispatch) raised, the result carries exit code `-1` and status
`FAILED`. -/
theorem execute_never_raises (job : Job) (openLog : Except String Unit)
    (dispatch : String → Except String Int) (startTime endTime : Nat)
    (hkind : job.job_type = "script" ∨ job.job_type = "project") :
    ∃ r : ExecRecord, executeJob job openLog dispatch startTime endTime = Except.ok r ∧
      r.startTime = startTime ∧ r.endTime = endTime ∧
      r.duration = (endTime : Int) - (startTime : Int) ∧
      (((∃ e, openLog = Except.error e) ∨ (∃ e, dispatch job.job_type = Except.error e)) →
        r.exitCode = -1 ∧ r.status = "FAILED") := by
  refine ⟨_, rfl, rfl, rfl, rfl, ?_⟩
  rintro (⟨e, he⟩ | ⟨e, he⟩)
  · cases hkind with
    | inl h => simp [executeJob, h, he, statusOf, Bind.bind, Except.bind]
    | inr h => simp [executeJob, h, he, statusOf, Bind.bind, Except.bind]
  · cases openLog with
    | error e2 => cases hkind with
      | inl h => simp [executeJob, h, statusOf, Bind.bind, Except.bind]
      | inr h => simp [executeJob, h, statusOf, Bind.bind, Except.bind]
    | ok u => cases hkind with
      | inl h => rw [h] at he; simp [executeJob, h, he, statusOf, Bind.bind, Except.bind]
      | inr h => rw [h] at he; simp [executeJob, h, he, statusOf, Bind.bind, Except.bind]

/-- Witness for C1: a script job whose dispatch raises yields an ok record
with exit code -1, status FAILED, and the timestamps recorded. -/
theorem execute_never_raises_witness :
    ∃ r : ExecRecord,
      executeJob ⟨"j", "script", "x", none, none⟩ (Except.ok ())
          (fun _ => Except.error "boom") 5 9 = Except.ok r ∧
      r.startTime = 5 ∧ r.endTime = 9 ∧ r.duration = ((9 : Nat) : Int) - ((5 : Nat) : Int) ∧
      (((∃ e, (Except.ok () : Except String Unit) = Except.error e) ∨
        (∃ e, (fun _ : String => (Except.error "boom" : Except String Int))
            (Job.job_type ⟨"j", "script", "x", none, none⟩) = Except.error e)) →
        r.exitCode = -1 ∧ r.status = "FAILED") :=
  execute_never_raises ⟨"j", "script", "x", none, none⟩ (Except.ok ())
    (fun _ => Except.error "boom") 5 9 (Or.inl rfl)

/-- C2: provided the child's own reported exit status is non-negative (POSIX
exit statuses are 0-255; negative `returncode` values encode signal deaths,
not codes the child reported), `_run_command` returns `-1` exactly when the
executor itself intervened: spawn/internal exception or timeout. -/
theorem run_command_sentinel_reserved (procTimeout : Nat) (c : ChildOutcome)
    (hchild : ∀ d rc g, c = ChildOutcome.runsFor d rc g → 0 ≤ rc) :
    ((runCommand procTimeout c).exitCode = -1 ↔ intervened procTimeout c = true) := by
  cases c with
  | spawnFailure => simp [runCommand, intervened]
  | runsFor d rc g =>
    have hrc : 0 ≤ rc := hchild d rc g rfl
    simp only [runCommand, intervened]
    by_cases hd : d ≤ procTimeout
    · simp [hd, Nat.not_lt.mpr hd]
      rcases eq_or_ne rc 0 with h0 | h0
      · simp [h0]
      · simp [h0]
        omega
    · simp [hd, Nat.lt_of_not_le hd]
      cases g <;> simp

/-- Witness for C2: a child exceeding a 30-unit budget yields the sentinel. -/
theorem run_command_sentinel_reserved_witness :
    (0 ≤ (7 : Int)) ∧ (runCommand 30 (ChildOutcome.runsFor 50 7 true)).exitCode = -1 :=
  ⟨by decide,
   (run_command_sentinel_reserved 30 (ChildOutcome.runsFor 50 7 true)
     (by intro d rc g h; cases h; decide)).mpr (by decide)⟩

/-- C3: on every run whose child exceeds the timeout budget, `_run_command`
sends terminate, waits the fixed 10-unit grace window, kills exactly when the
child is still alive after it, and returns the sentinel `-1` (hence status
FAILED) whether or not the child exited on its own during the grace window. -/
theorem timeout_terminate_grace_kill (procTimeout duration : Nat) (rc : Int)
    (exitsOnTerm : Bool) (hto : procTimeout < duration) :
    (runCommand procTimeout (ChildOutcome.runsFor duration rc exitsOnTerm)).terminateSent = true ∧
    (runCommand procTimeout (ChildOutcome.runsFor duration rc exitsOnTerm)).graceWait = 10 ∧
    (runCommand procTimeout (ChildOutcome.runsFor duration rc exitsOnTerm)).killed = !exitsOnTerm ∧
    (runCommand procTimeout (ChildOutcome.runsFor duration rc exitsOnTerm)).exitCode = -1 ∧
    statusOf (runCommand procTimeout (ChildOutcome.runsFor duration rc exitsOnTerm)).exitCode =
      "FAILED" := by
  have hd : ¬ duration ≤ procTimeout := Nat.not_le.mpr hto
  cases exitsOnTerm <;> simp [runCommand, hd, statusOf]

/-- Witness for C3: a 50-unit child against a 5-unit budget, exiting in the
grace window, still gets the sentinel and FAILED. -/
theorem timeout_terminate_grace_kill_witness :
    5 < 50 ∧
    ((runCommand 5 (ChildOutcome.runsFor 50 0 true)).terminateSent = true ∧
     (runCommand 5 (ChildOutcome.runsFor 50 0 true)).graceWait = 10 ∧
     (runCommand 5 (ChildOutcome.runsFor 50 0 true)).killed = !true ∧
     (runCommand 5 (ChildOutcome.runsFor 50 0 true)).exitCode = -1 ∧
     statusOf (runCommand 5 (ChildOutcome.runsFor 50 0 true)).exitCode = "FAILED") :=
  ⟨by decide, timeout_terminate_grace_kill 5 50 0 true (by decide)⟩

/-- C4 counterexample: a directory containing `pyproject.toml` does NOT always
run in managed, non-isolated mode: when `requirements.txt` is also present the
built run command carries the `--no-project` isolation flag, because
`_execute_project` checks `has_requirements` first when building the run
command. -/
theorem project_pyproject_isolation_counterexample :
    bothManifestsFs.hasPyproject = true ∧ bothManifestsFs.pathIsFile = false ∧
    "--no-project" ∈
      ((executeProject (some "3.12") bothManifestsFs (fun _ => 0)).runCommand.getD []) := by
  decide

/-- C4 (amended): for a project directory containing `pyproject.toml` and no
`requirements.txt`, whenever preparation succeeds the run command is built in
managed, non-isolated mode (`no_project = false`, honoring the ambient
manifest). -/
theorem project_pyproject_managed_mode (pv : Option String) (fs : ProjectFs)
    (exitOf : List String → Int) (hfile : fs.pathIsFile = false)
    (hpy : fs.hasPyproject = true) (hreq : fs.hasRequirements = false)
    (hok : (ensureProjectEnvironment pv fs exitOf).2.1 = true) :
    (executeProject pv fs exitOf).runCommand =
      some (buildUvRunCommand
        (projectEntryCommand (ensureProjectEnvironment pv fs exitOf).2.2) false pv) := by
  simp [executeProject, hfile, hpy, hreq, hok]

/-- Witness for the amended C4: a pyproject-only directory with its managed
environment in place runs in non-isolated mode. -/
theorem project_pyproject_managed_mode_witness :
    (executeProject none pyprojectOnlyFs (fun _ => 0)).runCommand =
      some (buildUvRunCommand
        (projectEntryCommand
          (ensureProjectEnvironment none pyprojectOnlyFs (fun _ => 0)).2.2) false none) :=
  project_pyproject_managed_mode none pyprojectOnlyFs (fun _ => 0) rfl rfl rfl (by decide)

/-- C5: environment preparation is idempotent and triggered purely by absence:
when the managed (`.venv`, pyproject case) or bare (`.venv/bin/python`,
requirements case) environment already exists, a project execution issues zero
preparation commands; and for a requirements-only directory without an
environment, the first execution issues exactly the create and install
commands while a second execution against the resulting state issues none. -/
theorem environment_preparation_idempotent :
    (∀ (pv : Option String) (fs : ProjectFs) (exitOf : List String → Int),
      fs.pathIsFile = false →
      (fs.hasPyproject = true → fs.venvDirExists = true) →
      (fs.hasPyproject = false → fs.venvPythonExists = true) →
      (executeProject pv fs exitOf).prepCommands = []) ∧
    (∀ (pv : Option String) (fs : ProjectFs) (exitOf : List String → Int),
      fs.pathIsFile = false → fs.hasPyproject = false → fs.hasRequirements = true →
      fs.venvPythonExists = false →
      exitOf (["uv", "venv"] ++ pythonFlags pv) = 0 →
      exitOf ["uv", "pip", "install", "-r", "requirements.txt", "--python", venvPython fs] = 0 →
      (executeProject pv fs exitOf).prepCommands =
        [["uv", "venv"] ++ pythonFlags pv,
         ["uv", "pip", "install", "-r", "requirements.txt", "--python", venvPython fs]] ∧
      (executeProject pv (executeProject pv fs exitOf).fsAfter exitOf).prepCommands = []) := by
  constructor
  · intro pv fs exitOf hfile h1 h2
    obtain ⟨pif, hp, hr, vd, vpe, em, ea, ed, pp, dn⟩ := fs
    cases pif with
    | true => exact Bool.noConfusion hfile
    | false =>
      cases hp with
      | true =>
        cases vd with
        | false => exact Bool.noConfusion (h1 rfl)
        | true => cases hr <;> rfl
      | false =>
        cases vpe with
        | false => exact Bool.noConfusion (h2 rfl)
        | true => cases hr <;> cases em <;> cases ea <;> cases ed <;> rfl
  · intro pv fs exitOf hfile hpy hreq hvenv hex1 hex2
    simp only [List.cons_append, List.nil_append] at hex1
    refine ⟨?_, ?_⟩ <;>
      simp [executeProject, ensureProjectEnvironment, hfile, hpy, hreq, hvenv, hex1, hex2]

/-- Witness for C5: a ready pyproject directory issues no preparation
commands; a bare requirements-only directory issues exactly a create and an
install on the first run and nothing on the second. -/
theorem environment_preparation_idempotent_witness :
    (executeProject none pyprojectOnlyFs (fun _ => 0)).prepCommands = [] ∧
    ((executeProject none reqOnlyFs (fun _ => 0)).prepCommands =
        [["uv", "venv"] ++ pythonFlags none,
         ["uv", "pip", "install", "-r", "requirements.txt", "--python", venvPython reqOnlyFs]] ∧
      (executeProject none (executeProject none reqOnlyFs (fun _ => 0)).fsAfter
          (fun _ => 0)).prepCommands = []) :=
  ⟨environment_preparation_idempotent.1 none pyprojectOnlyFs (fun _ => 0) rfl
      (fun _ => rfl) (fun h => absurd h (by decide)),
   environment_preparation_idempotent.2 none reqOnlyFs (fun _ => 0) rfl rfl rfl rfl rfl rfl⟩

/-- C6: the command built for every Script job always opens with the
isolation flag, uses the job's requested interpreter version when truthy and
the configured default otherwise, and injects each declared extra dependency
individually, in declaration order. -/
theorem script_always_isolated (job : Job) (defaultPv : Option String) :
    (executeScript job defaultPv).take 3 = ["uv", "run", "--no-project"] ∧
    executeScript job defaultPv =
      ["uv", "run", "--no-project"] ++
        pythonFlags (if optTruthy job.python_version then job.python_version else defaultPv) ++
        (job.dependencies.getD []).flatMap (fun d => ["--with", d]) ++ [job.path] := by
  have hw : withFlags job.dependencies =
      (job.dependencies.getD []).flatMap (fun d => ["--with", d]) := by
    cases job.dependencies with
    | none => simp [withFlags]
    | some ds => cases ds <;> simp [withFlags]
  constructor
  · simp [executeScript, scriptPathCommand]
  · simp [executeScript, scriptPathCommand, hw, resolvedPythonVersion]

lemma countRunning_set (l : List Phase) :
    ∀ (i : Nat) (v x : Phase), l[i]? = some x →
      countRunning (l.set i v) + (if x = Phase.running then 1 else 0) =
        countRunning l + (if v = Phase.running then 1 else 0) := by
  induction l with
  | nil => intro i v x h; simp at h
  | cons a rest ih =>
    intro i v x h
    cases i with
    | zero =>
      simp at h
      subst h
      simp only [List.set, countRunning]
      ring
    | succ j =>
      simp at h
      have h2 := ih j v x h
      simp only [List.set, countRunning]
      omega

lemma semStep_invariant {cap : Nat} {s t : SemState} (hst : SemStep s t)
    (hinv : s.avail + countRunning s.phases = cap) :
    t.avail + countRunning t.phases = cap := by
  cases hst with
  | submit i h =>
    have h2 := countRunning_set s.phases i Phase.waiting Phase.idle h
    simp at h2 ⊢
    omega
  | acquire i h hav =>
    have h2 := countRunning_set s.phases i Phase.running Phase.waiting h
    simp at h2 ⊢
    omega
  | finish i o h =>
    have h2 := countRunning_set s.phases i Phase.done Phase.running h
    simp at h2 ⊢
    omega

lemma countRunning_replicate_idle (n : Nat) :
    countRunning (List.replicate n Phase.idle) = 0 := by
  induction n with
  | zero => rfl
  | succ k ih => simp [List.replicate, countRunning, ih]

lemma reachable_invariant {cap n : Nat} {s : SemState} (h : Reachable cap n s) :
    s.avail + countRunning s.phases = cap := by
  induction h with
  | refl => simp [initState, countRunning_replicate_idle]
  | tail hst step ih => exact semStep_invariant step ih

/-- C7: in every reachable scheduler state, at most `cap` child processes are
alive; free slots plus alive children always equal the capacity, so when `cap`
children are alive no slot is free and an `acquire` step (the only way a child
is spawned) is blocked; and from any state a running execution can take the
`finish` step under every exit path (normal, timeout, spawn failure), which
releases its slot. -/
theorem semaphore_capacity_bound (cap n : Nat) (s : SemState) (h : Reachable cap n s) :
    countRunning s.phases ≤ cap ∧
    s.avail + countRunning s.phases = cap ∧
    (countRunning s.phases = cap → s.avail = 0) ∧
    (∀ (i : Nat) (_o : ExitPath), s.phases[i]? = some Phase.running →
      SemStep s ⟨s.avail + 1, s.phases.set i Phase.done⟩) := by
  have hinv := reachable_invariant h
  exact ⟨by omega, hinv, by omega, fun i o hi => SemStep.finish s i o hi⟩

/-- Witness for C7: capacity 2 with 3 submitted executions, at the initial
state. -/
theorem semaphore_capacity_bound_witness :
    countRunning (initState 2 3).phases ≤ 2 ∧
    (initState 2 3).avail + countRunning (initState 2 3).phases = 2 ∧
    (countRunning (initState 2 3).phases = 2 → (initState 2 3).avail = 0) ∧
    (∀ (i : Nat) (_o : ExitPath), (initState 2 3).phases[i]? = some Phase.running →
      SemStep (initState 2 3)
        ⟨(initState 2 3).avail + 1, (initState 2 3).phases.set i Phase.done⟩) :=
  semaphore_capacity_bound 2 3 (initState 2 3) Relation.ReflTransGen.refl

/-- C8 counterexample: the executor's log file name differs from the spec's
`<job_name>_<YYYYMMDDHHMMSS>.log` pattern: the format string is
`'%Y%m%d_%H%M%S'`, which puts an underscore between the date and the time. -/
theorem log_name_spec_counterexample :
    logFileName "job" ⟨2024, 1, 2, 3, 4, 5⟩ ≠ specLogFileName "job" ⟨2024, 1, 2, 3, 4, 5⟩ := by
  decide

/-- C8 (amended): the log file path is exactly
`<logs_dir>/<job_name>_<YYYYMMDD_HHMMSS>.log`, a function of the job name and
the construction-time timestamp truncated to the second, with every field
zero-padded. -/
theorem log_path_format (logsDir jobName : String) (t : DateTime) :
    logFilePath logsDir jobName t =
      logsDir ++ "/" ++ jobName ++ "_" ++ zeroPad 4 t.year ++ zeroPad 2 t.month ++
        zeroPad 2 t.day ++ "_" ++ zeroPad 2 t.hour ++ zeroPad 2 t.minute ++
        zeroPad 2 t.second ++ ".log" := by
  have hu : String.singleton '_' = "_" := by decide
  simp [logFilePath, logFileName, strftime, logTimestampFormat, renderDirective, hu,
    String.append_assoc, String.append_empty]

lemma withFlags_length_sum (deps : List String) :
    (List.map (List.length ∘ fun d => ["--with", d]) deps).sum = 2 * deps.length := by
  induction deps with
  | nil => simp
  | cons a rest ih =>
    simp [ih]
    ring

/-- C9: a Project job whose path is itself a file is run as an isolated
script with NO dependency flags (the dependency list is passed as `None`),
whereas a Script job on the same path with a non-empty dependency list builds
a strictly different command. -/
theorem project_file_no_dependency_injection (pv : Option String) (fs : ProjectFs)
    (exitOf : List String → Int) (deps : List String)
    (hfile : fs.pathIsFile = true) (hdeps : deps ≠ []) :
    (executeProject pv fs exitOf).runCommand =
      some (["uv", "run", "--no-project"] ++ pythonFlags pv ++ [fs.projectPath]) ∧
    scriptPathCommand pv (some deps) fs.projectPath ≠
      ["uv", "run", "--no-project"] ++ pythonFlags pv ++ [fs.projectPath] := by
  constructor
  · simp [executeProject, hfile, scriptPathCommand, withFlags]
  · intro h
    have hlen := congrArg List.length h
    simp [scriptPathCommand, withFlags, hdeps, List.length_flatMap,
      withFlags_length_sum] at hlen

/-- Witness for C9: a file-target project job never gets `--with` flags, while
the Script command with dependency `requests` differs. -/
theorem project_file_no_dependency_injection_witness :
    (executeProject none fileTargetFs (fun _ => 0)).runCommand =
      some (["uv", "run", "--no-project"] ++ pythonFlags none ++ [fileTargetFs.projectPath]) ∧
    scriptPathCommand none (some ["requests"]) fileTargetFs.projectPath ≠
      ["uv", "run", "--no-project"] ++ pythonFlags none ++ [fileTargetFs.projectPath] :=
  project_file_no_dependency_injection none fileTargetFs (fun _ => 0) ["requests"] rfl
    (by decide)

/-- C10: a project directory with neither manifest and none of `main.py`,
`app.py`, `__main__.py` still resolves: it runs as a module invocation of the
directory's own name in isolated mode, the same run command as when
`__main__.py` exists. -/
theorem project_module_fallback (pv : Option String) (fs : ProjectFs)
    (exitOf : List String → Int)
    (hfile : fs.pathIsFile = false) (hpy : fs.hasPyproject = false)
    (hreq : fs.hasRequirements = false) (hmain : fs.hasMainPy = false)
    (happ : fs.hasAppPy = false) (hdm : fs.hasDunderMain = false) :
    (executeProject pv fs exitOf).runCommand =
      some (buildUvRunCommand ["python", "-m", fs.dirName] true pv) ∧
    (executeProject pv fs exitOf).runCommand =
      (executeProject pv { fs with hasDunderMain := true } exitOf).runCommand := by
  constructor
  · simp [executeProject, hfile, hpy, hreq, projectEntryCommand, hmain, happ, hdm]
  · simp [executeProject, hfile, hpy, hreq, projectEntryCommand, hmain, happ, hdm]

/-- Witness for C10: an empty directory named `tool` runs as `python -m tool`
under isolation, exactly as it would with a `__main__.py`. -/
theorem project_module_fallback_witness :
    (executeProject none emptyDirFs (fun _ => 0)).runCommand =
      some (buildUvRunCommand ["python", "-m", emptyDirFs.dirName] true none) ∧
    (executeProject none emptyDirFs (fun _ => 0)).runCommand =
      (executeProject none { emptyDirFs with hasDunderMain := true } (fun _ => 0)).runCommand :=
  project_module_fallback none emptyDirFs (fun _ => 0) rfl rfl rfl rfl rfl rfl

end Pem
